import Mathlib

/-!
# Authentication core of `auth-service`

A shallow embedding of `internal/services/auth/auth.go` (package `auth`): the
orchestrator `Auth` with its three operations `Login`, `RegisterNewUser` and
`IsAdmin`.

The collaborators of the orchestrator are not part of the sources and are taken
as parameters:

* the storage capabilities (`UserSaver`, `UserProvider`, `AppProvider`) are the
  fields of `Auth`, exactly as in the Go struct;
* `bcrypt.GenerateFromPassword`, `bcrypt.CompareHashAndPassword` and
  `jwt.NewToken` are the fields of `Env`;
* the texts of the sentinel errors of package `storage` are fields of `Env`.

Everything outside the process memory that a call can read or change (the
database, the clock, the random source) is one value of an arbitrary type `σ`,
passed explicitly through every collaborator call.  Each operation returns a
`Run`: the two Go results, the final outside state, and the list of calls made
to collaborators and to the logger, in order.  The `context.Context` argument
carries no data used by the orchestrator and is left out.
-/

namespace AuthService

/-! ## Go values -/

/-- A byte slice, `[]byte`. -/
abbrev Bytes := List UInt8

/-- The conversion `[]byte(s)` of a string to its bytes. -/
def bytes (s : String) : Bytes := s.data.flatMap String.utf8EncodeChar

/-- The place where an error value without an inner error was allocated.
`errors.New` returns a fresh pointer, and Go compares such errors by pointer,
so two of them are equal exactly when they come from the same place. -/
inductive ErrSite where
  | authErrInvalidCredentials
  | authErrInvalidAppID
  | authErrUserExists
  | storageErrUserExists
  | storageErrUserNotFound
  | storageErrAppNotFound
  | other (n : Nat)
  deriving DecidableEq, Repr

/-- Go `error` values: the results of `errors.New` (and any other error that
wraps nothing), and the results of `fmt.Errorf` with one `%w` verb. -/
inductive GoError where
  | errorString (site : ErrSite) (s : String)
  | wrapError (msg : String) (err : GoError)
  deriving DecidableEq, Repr

/-- The method `Error()`. -/
def GoError.Error : GoError → String
  | .errorString _ s => s
  | .wrapError msg _ => msg

/-- The function `errors.Unwrap`. -/
def errorsUnwrap : GoError → Option GoError
  | .errorString _ _ => none
  | .wrapError _ err => some err

/-- The function `errors.Is`: `target` is `err` or is reachable from `err` by
unwrapping. -/
def errorsIs : GoError → GoError → Bool
  | .errorString site s, target => decide (GoError.errorString site s = target)
  | .wrapError msg err, target =>
      decide (GoError.wrapError msg err = target) || errorsIs err target

/-- The call `fmt.Errorf("%s: %w", op, err)`. -/
def fmtErrorf (op : String) (err : GoError) : GoError :=
  .wrapError (op ++ ": " ++ err.Error) err

/-- The function `strings.Contains` on the characters of the two strings, as used
by `assert.ErrorContains`. -/
def stringsContains (s substr : String) : Bool := decide (substr.data <:+: s.data)

/-! ## Domain models (package `models`) -/

/-- Modelled from the spec: the record `models.User` (package `models` is not part
of the sources), with the fields of the data model: `id`, `email`,
`passwordHash`. -/
structure models.User where
  ID : Int
  Email : String
  PassHash : Bytes
  deriving DecidableEq, Repr

/-- Modelled from the spec: the record `models.App` (package `models` is not part
of the sources), with the fields of the data model: `id`, `name`, `secret`. -/
structure models.App where
  ID : Int
  Name : String
  Secret : String
  deriving DecidableEq, Repr

/-! ## Package `auth` -/

/-- Levels of the `slog` calls made by the orchestrator. -/
inductive LogLevel where
  | info | warn | error
  deriving DecidableEq, Repr

/-- One call made by the orchestrator to a collaborator or to the logger (the
attributes attached to a log record are left out). -/
inductive Event where
  | log (level : LogLevel) (msg : String)
  | User (email : String)
  | Admin (userID : Int)
  | App (appID : Int)
  | SaveUser (email : String) (passHash : Bytes)
  | GenerateFromPassword (password : Bytes) (cost : Int)
  | CompareHashAndPassword (hashedPassword : Bytes) (password : Bytes)
  | NewToken (user : models.User) (app : models.App) (duration : Int)
  deriving DecidableEq, Repr

/-- The interface `UserSaver`. -/
structure UserSaver (σ : Type) where
  SaveUser : String → Bytes → σ → (Int × Option GoError) × σ

/-- The interface `UserProvider`. -/
structure UserProvider (σ : Type) where
  User : String → σ → (models.User × Option GoError) × σ
  Admin : Int → σ → (Bool × Option GoError) × σ

/-- The interface `AppProvider`. -/
structure AppProvider (σ : Type) where
  App : Int → σ → (models.App × Option GoError) × σ

/-- The logger `*slog.Logger`; its calls are recorded as `Event.log`. -/
structure Logger where
  deriving DecidableEq, Repr

/-- The struct `Auth`. -/
structure Auth (σ : Type) where
  log : Logger
  userSaver : UserSaver σ
  userProvider : UserProvider σ
  appProvider : AppProvider σ
  tokenTTL : Int

/-- The packages the orchestrator imports that are not part of the sources. -/
structure Env (σ : Type) where
  /-- Text of `storage.ErrUserExists`. -/
  storageUserExistsText : String
  /-- Text of `storage.ErrUserNotFound`. -/
  storageUserNotFoundText : String
  /-- Text of `storage.ErrAppNotFound`. -/
  storageAppNotFoundText : String
  /-- The function `bcrypt.GenerateFromPassword(password, cost)`; it draws a random salt. -/
  GenerateFromPassword : Bytes → Int → σ → (Bytes × Option GoError) × σ
  /-- The function `bcrypt.CompareHashAndPassword(hashedPassword, password)`;
  `none` is Go's `nil`, a match. -/
  CompareHashAndPassword : Bytes → Bytes → Option GoError
  /-- The function `jwt.NewToken(user, app, duration)`; it reads the clock. -/
  NewToken : models.User → models.App → Int → σ → (String × Option GoError) × σ

/-- The constant `bcrypt.DefaultCost`. -/
def bcrypt.DefaultCost : Int := 10

/-- Modelled from the spec: the sentinel `storage.ErrUserExists` (package `storage`
is not part of the sources), the failure signal `UserExists` of the storage
contract. -/
def storage.ErrUserExists {σ : Type} (env : Env σ) : GoError :=
  .errorString .storageErrUserExists env.storageUserExistsText

/-- Modelled from the spec: the sentinel `storage.ErrUserNotFound` (package
`storage` is not part of the sources), the failure signal `UserNotFound` of the
storage contract. -/
def storage.ErrUserNotFound {σ : Type} (env : Env σ) : GoError :=
  .errorString .storageErrUserNotFound env.storageUserNotFoundText

/-- Modelled from the spec: the sentinel `storage.ErrAppNotFound` (package
`storage` is not part of the sources), the failure signal `AppNotFound` of the
storage contract. -/
def storage.ErrAppNotFound {σ : Type} (env : Env σ) : GoError :=
  .errorString .storageErrAppNotFound env.storageAppNotFoundText

/-- The sentinel `ErrInvalidCredentials`. -/
def ErrInvalidCredentials : GoError :=
  .errorString .authErrInvalidCredentials "invalid credentials"

/-- The sentinel `ErrInvalidAppID`. -/
def ErrInvalidAppID : GoError :=
  .errorString .authErrInvalidAppID "invalid app id"

/-- The sentinel `ErrUserExists`. -/
def ErrUserExists : GoError :=
  .errorString .authErrUserExists "user already exists"

/-- What one call of an operation produces: the Go results `(ret, err)`, the
outside state after the call, and the calls made, in order. -/
structure Run (σ α : Type) where
  ret : α
  err : Option GoError
  store : σ
  events : List Event

/-- The constructor `New`. -/
def New {σ : Type} (log : Logger) (userSaver : UserSaver σ) (userProvider : UserProvider σ)
    (appProvider : AppProvider σ) (tokenTTL : Int) : Auth σ :=
  { log := log
    userSaver := userSaver
    userProvider := userProvider
    appProvider := appProvider
    tokenTTL := tokenTTL }

/-- The method `Auth.Login`. -/
def Login {σ : Type} (env : Env σ) (a : Auth σ) (email password : String) (appID : Int)
    (s : σ) : Run σ String :=
  let op := "auth.Auth.Login"
  let ev0 := [Event.log .info "Logging in", Event.User email]
  match a.userProvider.User email s with
  | ((_, some err), s1) =>
    if errorsIs err (storage.ErrUserNotFound env) then
      ⟨"", some (fmtErrorf op ErrInvalidCredentials), s1,
        ev0 ++ [Event.log .warn "User not found"]⟩
    else
      ⟨"", some (fmtErrorf op err), s1, ev0 ++ [Event.log .error "Failed to get user"]⟩
  | ((user, none), s1) =>
    let ev1 := ev0 ++ [Event.CompareHashAndPassword user.PassHash (bytes password)]
    match env.CompareHashAndPassword user.PassHash (bytes password) with
    | some _ =>
      ⟨"", some (fmtErrorf op ErrInvalidCredentials), s1,
        ev1 ++ [Event.log .warn "Invalid credentials"]⟩
    | none =>
      match a.appProvider.App appID s1 with
      | ((_, some err), s2) => ⟨"", some (fmtErrorf op err), s2, ev1 ++ [Event.App appID]⟩
      | ((app, none), s2) =>
        let ev2 := ev1 ++ [Event.App appID, Event.log .info "User logged in",
          Event.NewToken user app a.tokenTTL]
        match env.NewToken user app a.tokenTTL s2 with
        | ((_, some err), s3) =>
          ⟨"", some (fmtErrorf op err), s3, ev2 ++ [Event.log .error "Failed to create token"]⟩
        | ((token, none), s3) => ⟨token, none, s3, ev2⟩

/-- The method `Auth.RegisterNewUser`. -/
def RegisterNewUser {σ : Type} (env : Env σ) (a : Auth σ) (email password : String)
    (s : σ) : Run σ Int :=
  let op := "auth.Auth.RegisterNewUser"
  let ev0 := [Event.log .info "Registering new user",
    Event.GenerateFromPassword (bytes password) bcrypt.DefaultCost]
  match env.GenerateFromPassword (bytes password) bcrypt.DefaultCost s with
  | ((_, some err), s1) =>
    ⟨0, some (fmtErrorf op err), s1, ev0 ++ [Event.log .error "Failed to hash password"]⟩
  | ((passHash, none), s1) =>
    let ev1 := ev0 ++ [Event.SaveUser email passHash]
    match a.userSaver.SaveUser email passHash s1 with
    | ((_, some err), s2) =>
      if errorsIs err (storage.ErrUserExists env) then
        ⟨0, some (fmtErrorf op ErrUserExists), s2, ev1 ++ [Event.log .warn "User already exists"]⟩
      else
        ⟨0, some (fmtErrorf op err), s2, ev1 ++ [Event.log .error "Failed to save user"]⟩
    | ((id, none), s2) => ⟨id, none, s2, ev1 ++ [Event.log .info "User registered"]⟩

/-- The method `Auth.IsAdmin`. -/
def IsAdmin {σ : Type} (env : Env σ) (a : Auth σ) (userID : Int) (s : σ) : Run σ Bool :=
  let op := "auth.Auth.IsAdmin"
  let ev0 := [Event.log .info "Checking if user is admin", Event.Admin userID]
  match a.userProvider.Admin userID s with
  | ((_, some err), s1) =>
    if errorsIs err (storage.ErrAppNotFound env) then
      ⟨false, some (fmtErrorf op ErrInvalidAppID), s1, ev0 ++ [Event.log .warn "User not found"]⟩
    else
      ⟨false, some (fmtErrorf op err), s1, ev0 ++ [Event.log .error "Failed to get user"]⟩
  | ((isAdmin, none), s1) => ⟨isAdmin, none, s1, ev0 ++ [Event.log .info "User is admin"]⟩

/-! ## A reference world for concrete runs -/

/-- Modelled from the spec: the persistence collaborator (package `storage`, not
part of the sources) as an in-memory directory, together with the clock.  It
follows the table of storage capability contracts: `SaveUser` stores
`(email, passHash)` under a fresh id or reports `UserExists`, `User` returns the
record stored under an email or reports `UserNotFound`, `Admin` returns the
admin flag of a user id or reports `UserNotFound`, `App` returns the record of
an application id or reports `AppNotFound`. -/
structure World where
  users : List models.User
  admins : List Int
  apps : List models.App
  clock : Int
  deriving DecidableEq, Repr

/-- A stand-in for `bcrypt.GenerateFromPassword`: passwords longer than 72 bytes
are rejected (as bcrypt does), the hash of any other password is its reversal. -/
def refGenerateFromPassword (password : Bytes) (_cost : Int) (w : World) :
    (Bytes × Option GoError) × World :=
  if 72 < password.length then
    (([], some (.errorString (.other 0) "bcrypt: password length exceeds 72 bytes")), w)
  else
    ((password.reverse, none), w)

/-- A stand-in for `bcrypt.CompareHashAndPassword`, matching `refGenerateFromPassword`. -/
def refCompareHashAndPassword (hashedPassword password : Bytes) : Option GoError :=
  if hashedPassword = password.reverse then none
  else some (.errorString (.other 1)
    "crypto/bcrypt: hashedPassword is not the hash of the given password")

/-- Modelled from the spec: the claims of the token wire format (package `jwt` is
not part of the sources): `uid`, `email`, `app_id` and `exp`. -/
structure Claims where
  uid : Int
  email : String
  app_id : Int
  exp : Int
  deriving DecidableEq, Repr

/-- A stand-in for `jwt.NewToken`: it signs only for user 1, application 1 and a
lifetime of 3600 when the clock shows 1000, and the token is then the email of
the user. -/
def refNewToken (user : models.User) (app : models.App) (duration : Int) (w : World) :
    (String × Option GoError) × World :=
  if user.ID = 1 ∧ app.ID = 1 ∧ duration = 3600 ∧ w.clock = 1000 then ((user.Email, none), w)
  else (("", some (.errorString (.other 2) "key is of invalid type")), w)

/-- The claims of a token of `refNewToken`, issued when the clock shows 1000. -/
def refClaimsOf (token : String) : Option Claims :=
  some { uid := 1, email := token, app_id := 1, exp := 4600 }

/-- The clock of the reference world. -/
def refNow (w : World) : Int := w.clock

/-- The reference environment. -/
def refEnv : Env World :=
  { storageUserExistsText := "user already exists"
    storageUserNotFoundText := "user not found"
    storageAppNotFoundText := "app not found"
    GenerateFromPassword := refGenerateFromPassword
    CompareHashAndPassword := refCompareHashAndPassword
    NewToken := refNewToken }

/-- The reference storage as a `UserSaver`. -/
def refUserSaver : UserSaver World :=
  { SaveUser := fun email passHash w =>
      if w.users.any (fun u => decide (u.Email = email)) then
        ((0, some (storage.ErrUserExists refEnv)), w)
      else
        (((w.users.length : Int) + 1, none),
          { w with users := w.users ++
              [{ ID := (w.users.length : Int) + 1, Email := email, PassHash := passHash }] }) }

/-- The reference storage as a `UserProvider`. -/
def refUserProvider : UserProvider World :=
  { User := fun email w =>
      match w.users.find? (fun u => decide (u.Email = email)) with
      | some u => ((u, none), w)
      | none => (({ ID := 0, Email := "", PassHash := [] }, some (storage.ErrUserNotFound refEnv)), w)
    Admin := fun userID w =>
      if w.users.any (fun u => decide (u.ID = userID)) then
        ((decide (userID ∈ w.admins), none), w)
      else
        ((false, some (storage.ErrUserNotFound refEnv)), w) }

/-- The reference storage as an `AppProvider`. -/
def refAppProvider : AppProvider World :=
  { App := fun appID w =>
      match w.apps.find? (fun p => decide (p.ID = appID)) with
      | some p => ((p, none), w)
      | none => (({ ID := 0, Name := "", Secret := "" }, some (storage.ErrAppNotFound refEnv)), w) }

/-- The orchestrator over the reference storage, with a token lifetime of 3600. -/
def refAuth : Auth World :=
  New {} refUserSaver refUserProvider refAppProvider 3600

/-- A world with no user and the application 1 of the test suite. -/
def world0 : World :=
  { users := []
    admins := []
    apps := [{ ID := 1, Name := "test", Secret := "test-secret" }]
    clock := 1000 }

/-- The world after `a@x.com` has registered with the password `Passw0rd!`. -/
def world1 : World :=
  (RegisterNewUser refEnv refAuth "a@x.com" "Passw0rd!" world0).store

/-- The world after `b@x.com` has registered too, with the same password. -/
def world2 : World :=
  (RegisterNewUser refEnv refAuth "b@x.com" "Passw0rd!" world1).store

/-- An error of the database that is none of the signals of package `storage`. -/
def dbLocked : GoError := .errorString (.other 3) "database is locked"

/-- A `UserSaver` whose database is locked. -/
def brokenUserSaver : UserSaver World :=
  { SaveUser := fun _ _ w => ((0, some dbLocked), w) }

/-- A `UserProvider` whose database is locked. -/
def brokenUserProvider : UserProvider World :=
  { User := fun _ w => (({ ID := 0, Email := "", PassHash := [] }, some dbLocked), w)
    Admin := fun _ w => ((false, some dbLocked), w) }

/-- The orchestrator over the locked database. -/
def brokenAuth : Auth World :=
  New {} brokenUserSaver brokenUserProvider refAppProvider 3600

/-- A password of 73 bytes, one more than bcrypt accepts. -/
def longPassword : String := String.mk (List.replicate 73 'a')

/-- Whether an event is a call of `SaveUser`. -/
def Event.isSaveUser : Event → Bool
  | .SaveUser _ _ => true
  | _ => false

/-! ## Facts about errors -/

theorem errorsIs_fmtErrorf_self (op : String) (err : GoError) :
    errorsIs (fmtErrorf op err) err = true := by
  cases err <;> simp [fmtErrorf, errorsIs]

/-- What `errors.Is` finds in an error made by `fmt.Errorf` around a sentinel. -/
theorem errorsIs_fmtErrorf_errorString (op : String) (site : ErrSite) (s : String)
    (target : GoError) :
    errorsIs (fmtErrorf op (.errorString site s)) target = true ↔
      target = fmtErrorf op (.errorString site s) ∨ target = .errorString site s := by
  simp only [fmtErrorf, errorsIs, Bool.or_eq_true, decide_eq_true_eq]
  exact ⟨fun h => h.imp Eq.symm Eq.symm, fun h => h.imp Eq.symm Eq.symm⟩

/-- The stand-in issuer keeps the contract of the token issuer. -/
theorem refNewToken_contract (user : models.User) (app : models.App) (duration : Int)
    (w : World) (token : String) (w1 : World)
    (h : refEnv.NewToken user app duration w = ((token, none), w1)) :
    refClaimsOf token = some ⟨user.ID, user.Email, app.ID, refNow w + duration⟩ := by
  simp only [refEnv, refNewToken] at h
  split at h
  · next hc =>
    obtain ⟨h1, h2, h3, h4⟩ := hc
    simp only [Prod.mk.injEq] at h
    obtain ⟨⟨ht, -⟩, -⟩ := h
    simp [refClaimsOf, refNow, h1, h2, h3, h4, ← ht]
  · simp at h

/-- The reference storage returns, for an application id, a record with that id. -/
theorem refAppProvider_id (id : Int) (w : World) (app : models.App) (w1 : World)
    (h : refAppProvider.App id w = ((app, none), w1)) : app.ID = id := by
  simp only [refAppProvider] at h
  split at h
  · next p hp =>
    simp only [Prod.mk.injEq, and_true] at h
    have := List.find?_some hp
    rw [← h.1]
    simpa using this
  · simp at h

/-! ## The paths of `Login` -/

/-- The user lookup reports the not-found signal. -/
theorem Login_user_not_found {σ : Type} (env : Env σ) (a : Auth σ) (email password : String)
    (appID : Int) (s s1 : σ) (user : models.User) (err : GoError)
    (hUser : a.userProvider.User email s = ((user, some err), s1))
    (hNotFound : errorsIs err (storage.ErrUserNotFound env) = true) :
    Login env a email password appID s =
      ⟨"", some (fmtErrorf "auth.Auth.Login" ErrInvalidCredentials), s1,
        [Event.log .info "Logging in", Event.User email, Event.log .warn "User not found"]⟩ := by
  simp [Login, hUser, hNotFound]

/-- The user lookup fails with another error. -/
theorem Login_user_error {σ : Type} (env : Env σ) (a : Auth σ) (email password : String)
    (appID : Int) (s s1 : σ) (user : models.User) (err : GoError)
    (hUser : a.userProvider.User email s = ((user, some err), s1))
    (hOther : errorsIs err (storage.ErrUserNotFound env) = false) :
    Login env a email password appID s =
      ⟨"", some (fmtErrorf "auth.Auth.Login" err), s1,
        [Event.log .info "Logging in", Event.User email,
          Event.log .error "Failed to get user"]⟩ := by
  simp [Login, hUser, hOther]

/-- The password does not verify against the stored hash. -/
theorem Login_mismatch {σ : Type} (env : Env σ) (a : Auth σ) (email password : String)
    (appID : Int) (s s1 : σ) (user : models.User) (mismatch : GoError)
    (hUser : a.userProvider.User email s = ((user, none), s1))
    (hCompare : env.CompareHashAndPassword user.PassHash (bytes password) = some mismatch) :
    Login env a email password appID s =
      ⟨"", some (fmtErrorf "auth.Auth.Login" ErrInvalidCredentials), s1,
        [Event.log .info "Logging in", Event.User email,
          Event.CompareHashAndPassword user.PassHash (bytes password),
          Event.log .warn "Invalid credentials"]⟩ := by
  simp [Login, hUser, hCompare]

/-- The application lookup fails. -/
theorem Login_app_error {σ : Type} (env : Env σ) (a : Auth σ) (email password : String)
    (appID : Int) (s s1 s2 : σ) (user : models.User) (app : models.App) (err : GoError)
    (hUser : a.userProvider.User email s = ((user, none), s1))
    (hCompare : env.CompareHashAndPassword user.PassHash (bytes password) = none)
    (hApp : a.appProvider.App appID s1 = ((app, some err), s2)) :
    Login env a email password appID s =
      ⟨"", some (fmtErrorf "auth.Auth.Login" err), s2,
        [Event.log .info "Logging in", Event.User email,
          Event.CompareHashAndPassword user.PassHash (bytes password), Event.App appID]⟩ := by
  simp [Login, hUser, hCompare, hApp]

/-- The token issuer fails. -/
theorem Login_token_error {σ : Type} (env : Env σ) (a : Auth σ) (email password : String)
    (appID : Int) (s s1 s2 s3 : σ) (user : models.User) (app : models.App) (token : String)
    (err : GoError)
    (hUser : a.userProvider.User email s = ((user, none), s1))
    (hCompare : env.CompareHashAndPassword user.PassHash (bytes password) = none)
    (hApp : a.appProvider.App appID s1 = ((app, none), s2))
    (hToken : env.NewToken user app a.tokenTTL s2 = ((token, some err), s3)) :
    Login env a email password appID s =
      ⟨"", some (fmtErrorf "auth.Auth.Login" err), s3,
        [Event.log .info "Logging in", Event.User email,
          Event.CompareHashAndPassword user.PassHash (bytes password), Event.App appID,
          Event.log .info "User logged in", Event.NewToken user app a.tokenTTL,
          Event.log .error "Failed to create token"]⟩ := by
  simp [Login, hUser, hCompare, hApp, hToken]

/-- Every step succeeds. -/
theorem Login_success {σ : Type} (env : Env σ) (a : Auth σ) (email password : String)
    (appID : Int) (s s1 s2 s3 : σ) (user : models.User) (app : models.App) (token : String)
    (hUser : a.userProvider.User email s = ((user, none), s1))
    (hCompare : env.CompareHashAndPassword user.PassHash (bytes password) = none)
    (hApp : a.appProvider.App appID s1 = ((app, none), s2))
    (hToken : env.NewToken user app a.tokenTTL s2 = ((token, none), s3)) :
    Login env a email password appID s =
      ⟨token, none, s3,
        [Event.log .info "Logging in", Event.User email,
          Event.CompareHashAndPassword user.PassHash (bytes password), Event.App appID,
          Event.log .info "User logged in", Event.NewToken user app a.tokenTTL]⟩ := by
  simp [Login, hUser, hCompare, hApp, hToken]

/-! ## The paths of `RegisterNewUser` -/

/-- Hashing the password fails. -/
theorem RegisterNewUser_hash_error {σ : Type} (env : Env σ) (a : Auth σ)
    (email password : String) (s s1 : σ) (passHash : Bytes) (err : GoError)
    (hHash : env.GenerateFromPassword (bytes password) bcrypt.DefaultCost s =
      ((passHash, some err), s1)) :
    RegisterNewUser env a email password s =
      ⟨0, some (fmtErrorf "auth.Auth.RegisterNewUser" err), s1,
        [Event.log .info "Registering new user",
          Event.GenerateFromPassword (bytes password) bcrypt.DefaultCost,
          Event.log .error "Failed to hash password"]⟩ := by
  simp [RegisterNewUser, hHash]

/-- The storage reports that the email already exists. -/
theorem RegisterNewUser_user_exists {σ : Type} (env : Env σ) (a : Auth σ)
    (email password : String) (s s1 s2 : σ) (passHash : Bytes) (id : Int) (err : GoError)
    (hHash : env.GenerateFromPassword (bytes password) bcrypt.DefaultCost s =
      ((passHash, none), s1))
    (hSave : a.userSaver.SaveUser email passHash s1 = ((id, some err), s2))
    (hExists : errorsIs err (storage.ErrUserExists env) = true) :
    RegisterNewUser env a email password s =
      ⟨0, some (fmtErrorf "auth.Auth.RegisterNewUser" ErrUserExists), s2,
        [Event.log .info "Registering new user",
          Event.GenerateFromPassword (bytes password) bcrypt.DefaultCost,
          Event.SaveUser email passHash, Event.log .warn "User already exists"]⟩ := by
  simp [RegisterNewUser, hHash, hSave, hExists]

/-- The storage fails with another error. -/
theorem RegisterNewUser_save_error {σ : Type} (env : Env σ) (a : Auth σ)
    (email password : String) (s s1 s2 : σ) (passHash : Bytes) (id : Int) (err : GoError)
    (hHash : env.GenerateFromPassword (bytes password) bcrypt.DefaultCost s =
      ((passHash, none), s1))
    (hSave : a.userSaver.SaveUser email passHash s1 = ((id, some err), s2))
    (hOther : errorsIs err (storage.ErrUserExists env) = false) :
    RegisterNewUser env a email password s =
      ⟨0, some (fmtErrorf "auth.Auth.RegisterNewUser" err), s2,
        [Event.log .info "Registering new user",
          Event.GenerateFromPassword (bytes password) bcrypt.DefaultCost,
          Event.SaveUser email passHash, Event.log .error "Failed to save user"]⟩ := by
  simp [RegisterNewUser, hHash, hSave, hOther]

/-- The user is stored. -/
theorem RegisterNewUser_success {σ : Type} (env : Env σ) (a : Auth σ)
    (email password : String) (s s1 s2 : σ) (passHash : Bytes) (id : Int)
    (hHash : env.GenerateFromPassword (bytes password) bcrypt.DefaultCost s =
      ((passHash, none), s1))
    (hSave : a.userSaver.SaveUser email passHash s1 = ((id, none), s2)) :
    RegisterNewUser env a email password s =
      ⟨id, none, s2,
        [Event.log .info "Registering new user",
          Event.GenerateFromPassword (bytes password) bcrypt.DefaultCost,
          Event.SaveUser email passHash, Event.log .info "User registered"]⟩ := by
  simp [RegisterNewUser, hHash, hSave]

/-! ## The paths of `IsAdmin` -/

/-- The admin lookup fails with an error that is `storage.ErrAppNotFound`. -/
theorem IsAdmin_app_not_found {σ : Type} (env : Env σ) (a : Auth σ) (userID : Int)
    (s s1 : σ) (flag : Bool) (err : GoError)
    (hAdmin : a.userProvider.Admin userID s = ((flag, some err), s1))
    (hIs : errorsIs err (storage.ErrAppNotFound env) = true) :
    IsAdmin env a userID s =
      ⟨false, some (fmtErrorf "auth.Auth.IsAdmin" ErrInvalidAppID), s1,
        [Event.log .info "Checking if user is admin", Event.Admin userID,
          Event.log .warn "User not found"]⟩ := by
  simp [IsAdmin, hAdmin, hIs]

/-- The admin lookup fails with another error. -/
theorem IsAdmin_error {σ : Type} (env : Env σ) (a : Auth σ) (userID : Int)
    (s s1 : σ) (flag : Bool) (err : GoError)
    (hAdmin : a.userProvider.Admin userID s = ((flag, some err), s1))
    (hOther : errorsIs err (storage.ErrAppNotFound env) = false) :
    IsAdmin env a userID s =
      ⟨false, some (fmtErrorf "auth.Auth.IsAdmin" err), s1,
        [Event.log .info "Checking if user is admin", Event.Admin userID,
          Event.log .error "Failed to get user"]⟩ := by
  simp [IsAdmin, hAdmin, hOther]

/-- The admin lookup succeeds. -/
theorem IsAdmin_success {σ : Type} (env : Env σ) (a : Auth σ) (userID : Int)
    (s s1 : σ) (flag : Bool)
    (hAdmin : a.userProvider.Admin userID s = ((flag, none), s1)) :
    IsAdmin env a userID s =
      ⟨flag, none, s1,
        [Event.log .info "Checking if user is admin", Event.Admin userID,
          Event.log .info "User is admin"]⟩ := by
  simp [IsAdmin, hAdmin]

/-! ## Login -/

/-- C1: when the user lookup reports the not-found signal of the storage, `Login`
returns the empty token and an error that is `ErrInvalidCredentials`; the storage
error is not reachable from that error. -/
theorem login_user_not_found {σ : Type} (env : Env σ) (a : Auth σ) (email password : String)
    (appID : Int) (s s1 : σ) (user : models.User) (err : GoError)
    (hUser : a.userProvider.User email s = ((user, some err), s1))
    (hNotFound : errorsIs err (storage.ErrUserNotFound env) = true) :
    (Login env a email password appID s).ret = "" ∧
    ∃ e, (Login env a email password appID s).err = some e ∧
      errorsIs e ErrInvalidCredentials = true ∧
      errorsIs e err = false ∧
      errorsIs e (storage.ErrUserNotFound env) = false := by
  rw [Login_user_not_found env a email password appID s s1 user err hUser hNotFound]
  refine ⟨rfl, _, rfl, errorsIs_fmtErrorf_self _ _, ?_, ?_⟩
  · by_contra hc
    rw [Bool.not_eq_false, ErrInvalidCredentials, errorsIs_fmtErrorf_errorString] at hc
    rcases hc with hc | hc <;> subst hc <;>
      simp [fmtErrorf, errorsIs, storage.ErrUserNotFound] at hNotFound
  · rw [Bool.eq_false_iff]
    intro hc
    rw [ErrInvalidCredentials, errorsIs_fmtErrorf_errorString] at hc
    rcases hc with hc | hc <;> cases hc

/-- A run of C1: nobody is registered in `world0`. -/
theorem login_user_not_found_witness :
    (Login refEnv refAuth "nobody@x.com" "Passw0rd!" 1 world0).ret = "" ∧
    ∃ e, (Login refEnv refAuth "nobody@x.com" "Passw0rd!" 1 world0).err = some e ∧
      errorsIs e ErrInvalidCredentials = true ∧
      errorsIs e (storage.ErrUserNotFound refEnv) = false ∧
      errorsIs e (storage.ErrUserNotFound refEnv) = false :=
  login_user_not_found refEnv refAuth "nobody@x.com" "Passw0rd!" 1 world0 world0
    { ID := 0, Email := "", PassHash := [] } (storage.ErrUserNotFound refEnv) (by rfl) (by decide)

/-- C2: for a stored user whose hash the password does not verify against, `Login`
returns the empty token and an error that is `ErrInvalidCredentials`; a `Login`
with the same email and application id in which the user does not exist returns
the same token and the same error. -/
theorem login_wrong_password {σ : Type} (env : Env σ) (a : Auth σ) (email password : String)
    (appID : Int) (s s1 : σ) (user : models.User) (mismatch : GoError)
    (hUser : a.userProvider.User email s = ((user, none), s1))
    (hCompare : env.CompareHashAndPassword user.PassHash (bytes password) = some mismatch)
    (a2 : Auth σ) (password2 : String) (t t1 : σ) (user2 : models.User) (err2 : GoError)
    (hUser2 : a2.userProvider.User email t = ((user2, some err2), t1))
    (hNotFound : errorsIs err2 (storage.ErrUserNotFound env) = true) :
    (Login env a email password appID s).ret = "" ∧
    ∃ e, (Login env a email password appID s).err = some e ∧
      errorsIs e ErrInvalidCredentials = true ∧
      e.Error = "auth.Auth.Login: invalid credentials" ∧
      (Login env a2 email password2 appID t).err = some e ∧
      (Login env a2 email password2 appID t).ret = (Login env a email password appID s).ret := by
  rw [Login_mismatch env a email password appID s s1 user mismatch hUser hCompare,
    Login_user_not_found env a2 email password2 appID t t1 user2 err2 hUser2 hNotFound]
  exact ⟨rfl, _, rfl, errorsIs_fmtErrorf_self _ _, by decide, rfl, rfl⟩

/-- A world in which `a@x.com` is registered with the password `Passw0rd!`. -/
theorem login_wrong_password_witness :
    (Login refEnv refAuth "a@x.com" "Passw0rd!1" 1 world1).ret = "" ∧
    ∃ e, (Login refEnv refAuth "a@x.com" "Passw0rd!1" 1 world1).err = some e ∧
      errorsIs e ErrInvalidCredentials = true ∧
      e.Error = "auth.Auth.Login: invalid credentials" ∧
      (Login refEnv refAuth "a@x.com" "Passw0rd!1" 1 world0).err = some e ∧
      (Login refEnv refAuth "a@x.com" "Passw0rd!1" 1 world0).ret =
        (Login refEnv refAuth "a@x.com" "Passw0rd!1" 1 world1).ret :=
  login_wrong_password refEnv refAuth "a@x.com" "Passw0rd!1" 1 world1 world1
    { ID := 1, Email := "a@x.com", PassHash := (bytes "Passw0rd!").reverse }
    (.errorString (.other 1)
      "crypto/bcrypt: hashedPassword is not the hash of the given password")
    (by rfl) (by rfl)
    refAuth "Passw0rd!1" world0 world0 { ID := 0, Email := "", PassHash := [] }
    (storage.ErrUserNotFound refEnv) (by rfl) (by decide)

/-- C5: `Login` returns a nil error or a non-empty token only if the user lookup
succeeded, the password verified against the stored hash and the application
lookup succeeded; when one of the three fails, `Login` returns the empty token
with a non-nil error and never calls the token issuer. -/
theorem login_token_only_if_verified {σ : Type} (env : Env σ) (a : Auth σ)
    (email password : String) (appID : Int) (s : σ) :
    (((Login env a email password appID s).err = none ∨
        (Login env a email password appID s).ret ≠ "") →
      ∃ user s1 app s2, a.userProvider.User email s = ((user, none), s1) ∧
        env.CompareHashAndPassword user.PassHash (bytes password) = none ∧
        a.appProvider.App appID s1 = ((app, none), s2)) ∧
    ((¬ ∃ user s1 app s2, a.userProvider.User email s = ((user, none), s1) ∧
        env.CompareHashAndPassword user.PassHash (bytes password) = none ∧
        a.appProvider.App appID s1 = ((app, none), s2)) →
      (Login env a email password appID s).ret = "" ∧
      (Login env a email password appID s).err ≠ none ∧
      ∀ user app duration,
        Event.NewToken user app duration ∉ (Login env a email password appID s).events) := by
  rcases hUser : a.userProvider.User email s with ⟨⟨user, _ | err⟩, s1⟩
  · cases hCompare : env.CompareHashAndPassword user.PassHash (bytes password) with
    | none =>
      rcases hApp : a.appProvider.App appID s1 with ⟨⟨app, _ | err⟩, s2⟩
      · exact ⟨fun _ => ⟨user, s1, app, s2, rfl, hCompare, hApp⟩,
          fun h => absurd ⟨user, s1, app, s2, rfl, hCompare, hApp⟩ h⟩
      · rw [Login_app_error env a email password appID s s1 s2 user app err hUser hCompare hApp]
        refine ⟨fun h => ?_, fun _ => ⟨rfl, by simp, by simp⟩⟩
        simp at h
    | some mismatch =>
      rw [Login_mismatch env a email password appID s s1 user mismatch hUser hCompare]
      refine ⟨fun h => ?_, fun _ => ⟨rfl, by simp, by simp⟩⟩
      simp at h
  · cases hIs : errorsIs err (storage.ErrUserNotFound env) with
    | true =>
      rw [Login_user_not_found env a email password appID s s1 user err hUser hIs]
      refine ⟨fun h => ?_, fun _ => ⟨rfl, by simp, by simp⟩⟩
      simp at h
    | false =>
      rw [Login_user_error env a email password appID s s1 user err hUser hIs]
      refine ⟨fun h => ?_, fun _ => ⟨rfl, by simp, by simp⟩⟩
      simp at h

/-- Two runs of C5: in `world1` the registered user logs in and the three steps
are found to have succeeded; in `world0` nobody is registered and no token is
issued. -/
theorem login_token_only_if_verified_witness :
    (∃ user s1 app s2, refAuth.userProvider.User "a@x.com" world1 = ((user, none), s1) ∧
        refEnv.CompareHashAndPassword user.PassHash (bytes "Passw0rd!") = none ∧
        refAuth.appProvider.App 1 s1 = ((app, none), s2)) ∧
    ((Login refEnv refAuth "a@x.com" "Passw0rd!" 1 world0).ret = "" ∧
      (Login refEnv refAuth "a@x.com" "Passw0rd!" 1 world0).err ≠ none ∧
      ∀ user app duration, Event.NewToken user app duration ∉
        (Login refEnv refAuth "a@x.com" "Passw0rd!" 1 world0).events) :=
  ⟨(login_token_only_if_verified refEnv refAuth "a@x.com" "Passw0rd!" 1 world1).1
      (Or.inl (by rfl)),
    (login_token_only_if_verified refEnv refAuth "a@x.com" "Passw0rd!" 1 world0).2
      (by
        rintro ⟨user, s1, app, s2, h, -, -⟩
        have h2 : refAuth.userProvider.User "a@x.com" world0 =
            (({ ID := 0, Email := "", PassHash := [] },
              some (storage.ErrUserNotFound refEnv)), world0) := by rfl
        rw [h2] at h
        simp at h)⟩

/-- C8: when the user lookup fails or the password does not verify, `Login` does
not call the application lookup, and its whole result is the same for any two
application ids. -/
theorem login_invalid_credentials_ignore_app {σ : Type} (env : Env σ) (a : Auth σ)
    (email password : String) (appID1 appID2 : Int) (s : σ)
    (hFail : (∃ user err s1, a.userProvider.User email s = ((user, some err), s1)) ∨
      (∃ user s1 mismatch, a.userProvider.User email s = ((user, none), s1) ∧
        env.CompareHashAndPassword user.PassHash (bytes password) = some mismatch)) :
    (∀ appID, Event.App appID ∉ (Login env a email password appID1 s).events) ∧
    Login env a email password appID1 s = Login env a email password appID2 s := by
  rcases hFail with ⟨user, err, s1, hUser⟩ | ⟨user, s1, mismatch, hUser, hCompare⟩
  · cases hIs : errorsIs err (storage.ErrUserNotFound env) with
    | true =>
      rw [Login_user_not_found env a email password appID1 s s1 user err hUser hIs,
        Login_user_not_found env a email password appID2 s s1 user err hUser hIs]
      exact ⟨by simp, rfl⟩
    | false =>
      rw [Login_user_error env a email password appID1 s s1 user err hUser hIs,
        Login_user_error env a email password appID2 s s1 user err hUser hIs]
      exact ⟨by simp, rfl⟩
  · rw [Login_mismatch env a email password appID1 s s1 user mismatch hUser hCompare,
      Login_mismatch env a email password appID2 s s1 user mismatch hUser hCompare]
    exact ⟨by simp, rfl⟩

/-- A run of C8: a wrong password for the registered user, with the application 1
that exists and the application 99 that does not. -/
theorem login_invalid_credentials_ignore_app_witness :
    (∀ appID, Event.App appID ∉ (Login refEnv refAuth "a@x.com" "wrong" 1 world1).events) ∧
    Login refEnv refAuth "a@x.com" "wrong" 1 world1 =
      Login refEnv refAuth "a@x.com" "wrong" 99 world1 :=
  login_invalid_credentials_ignore_app refEnv refAuth "a@x.com" "wrong" 1 99 world1
    (Or.inr ⟨{ ID := 1, Email := "a@x.com", PassHash := (bytes "Passw0rd!").reverse }, world1,
      .errorString (.other 1)
        "crypto/bcrypt: hashedPassword is not the hash of the given password",
      by rfl, by rfl⟩)

/-- C9: for an `Auth` built by `New` with `tokenTTL`, the token of a successful
`Login` is the one the token issuer produces for the user record returned for the
email, the application record returned for the application id and `tokenTTL`.
Under the contract of the issuer (a token carries the id and email of the user,
the id of the application and the expiry `now + ttl`) and of the storage (the
record returned for an application id carries that id), the token carries the
expiry `now + tokenTTL` and the application id given to `Login`. -/
theorem login_token_from_issuer {σ : Type} (env : Env σ) (log : Logger)
    (userSaver : UserSaver σ) (userProvider : UserProvider σ) (appProvider : AppProvider σ)
    (tokenTTL : Int) (email password : String) (appID : Int) (s : σ)
    (claimsOf : String → Option Claims) (now : σ → Int)
    (hIssuer : ∀ user app duration w token w1,
      env.NewToken user app duration w = ((token, none), w1) →
      claimsOf token = some ⟨user.ID, user.Email, app.ID, now w + duration⟩)
    (hStored : ∀ id w app w1, appProvider.App id w = ((app, none), w1) → app.ID = id)
    (hOk : (Login env (New log userSaver userProvider appProvider tokenTTL)
      email password appID s).err = none) :
    ∃ user s1 app s2, userProvider.User email s = ((user, none), s1) ∧
      appProvider.App appID s1 = ((app, none), s2) ∧
      env.NewToken user app tokenTTL s2 =
        (((Login env (New log userSaver userProvider appProvider tokenTTL)
            email password appID s).ret, none),
          (Login env (New log userSaver userProvider appProvider tokenTTL)
            email password appID s).store) ∧
      claimsOf (Login env (New log userSaver userProvider appProvider tokenTTL)
          email password appID s).ret =
        some ⟨user.ID, user.Email, appID, now s2 + tokenTTL⟩ := by
  have hU : ∀ e w, (New log userSaver userProvider appProvider tokenTTL).userProvider.User e w =
      userProvider.User e w := fun _ _ => rfl
  have hA : ∀ i w, (New log userSaver userProvider appProvider tokenTTL).appProvider.App i w =
      appProvider.App i w := fun _ _ => rfl
  have hT : (New log userSaver userProvider appProvider tokenTTL).tokenTTL = tokenTTL := rfl
  rcases hUser : userProvider.User email s with ⟨⟨user, _ | err⟩, s1⟩
  · cases hCompare : env.CompareHashAndPassword user.PassHash (bytes password) with
    | none =>
      rcases hApp : appProvider.App appID s1 with ⟨⟨app, _ | err⟩, s2⟩
      · rcases hToken : env.NewToken user app tokenTTL s2 with ⟨⟨token, _ | err⟩, s3⟩
        · rw [Login_success env _ email password appID s s1 s2 s3 user app token
            ((hU _ _).trans hUser) hCompare ((hA _ _).trans hApp) (hT ▸ hToken)]
          refine ⟨user, s1, app, s2, rfl, hApp, ?_, ?_⟩
          · exact hToken
          · have h1 := hIssuer user app tokenTTL s2 token s3 hToken
            have h2 := hStored appID s1 app s2 hApp
            rw [h2] at h1
            exact h1
        · rw [Login_token_error env _ email password appID s s1 s2 s3 user app token err
            ((hU _ _).trans hUser) hCompare ((hA _ _).trans hApp) (hT ▸ hToken)] at hOk
          simp at hOk
      · rw [Login_app_error env _ email password appID s s1 s2 user app err
          ((hU _ _).trans hUser) hCompare ((hA _ _).trans hApp)] at hOk
        simp at hOk
    | some mismatch =>
      rw [Login_mismatch env _ email password appID s s1 user mismatch
        ((hU _ _).trans hUser) hCompare] at hOk
      simp at hOk
  · cases hIs : errorsIs err (storage.ErrUserNotFound env) with
    | true =>
      rw [Login_user_not_found env _ email password appID s s1 user err
        ((hU _ _).trans hUser) hIs] at hOk
      simp at hOk
    | false =>
      rw [Login_user_error env _ email password appID s s1 user err
        ((hU _ _).trans hUser) hIs] at hOk
      simp at hOk

/-- A run of C9: the registered user logs in to the application 1. -/
theorem login_token_from_issuer_witness :
    ∃ user s1 app s2, refUserProvider.User "a@x.com" world1 = ((user, none), s1) ∧
      refAppProvider.App 1 s1 = ((app, none), s2) ∧
      refEnv.NewToken user app 3600 s2 =
        (((Login refEnv (New {} refUserSaver refUserProvider refAppProvider 3600)
            "a@x.com" "Passw0rd!" 1 world1).ret, none),
          (Login refEnv (New {} refUserSaver refUserProvider refAppProvider 3600)
            "a@x.com" "Passw0rd!" 1 world1).store) ∧
      refClaimsOf (Login refEnv (New {} refUserSaver refUserProvider refAppProvider 3600)
          "a@x.com" "Passw0rd!" 1 world1).ret =
        some ⟨user.ID, user.Email, 1, refNow s2 + 3600⟩ :=
  login_token_from_issuer refEnv {} refUserSaver refUserProvider refAppProvider 3600
    "a@x.com" "Passw0rd!" 1 world1 refClaimsOf refNow refNewToken_contract refAppProvider_id
    (by rfl)

/-! ## Registration -/

/-- C3 (counterexample): `b@x.com` registers in `world1`. Hashing succeeds, the
storage saves the record under the fresh id 2 and returns it for the email, the
hash verifies against the password and the application 1 resolves; the token
issuer fails, and `Login` returns the empty token and the error of the issuer
under the name of the operation. -/
theorem register_then_login_issuer_fails :
    refEnv.GenerateFromPassword (bytes "Passw0rd!") bcrypt.DefaultCost world1 =
      (((bytes "Passw0rd!").reverse, none), world1) ∧
    refAuth.userSaver.SaveUser "b@x.com" (bytes "Passw0rd!").reverse world1 =
      ((2, none), world2) ∧
    refAuth.userProvider.User "b@x.com" world2 =
      ((⟨2, "b@x.com", (bytes "Passw0rd!").reverse⟩, none), world2) ∧
    refEnv.CompareHashAndPassword (bytes "Passw0rd!").reverse (bytes "Passw0rd!") = none ∧
    refAuth.appProvider.App 1 world2 = ((⟨1, "test", "test-secret"⟩, none), world2) ∧
    (RegisterNewUser refEnv refAuth "b@x.com" "Passw0rd!" world1).ret = 2 ∧
    (RegisterNewUser refEnv refAuth "b@x.com" "Passw0rd!" world1).err = none ∧
    (Login refEnv refAuth "b@x.com" "Passw0rd!" 1
      (RegisterNewUser refEnv refAuth "b@x.com" "Passw0rd!" world1).store).ret = "" ∧
    ∃ e, (Login refEnv refAuth "b@x.com" "Passw0rd!" 1
        (RegisterNewUser refEnv refAuth "b@x.com" "Passw0rd!" world1).store).err = some e ∧
      e.Error = "auth.Auth.Login: key is of invalid type" :=
  ⟨by rfl, by rfl, by rfl, by rfl, by rfl, by rfl, by rfl, by rfl,
    fmtErrorf "auth.Auth.Login" (.errorString (.other 2) "key is of invalid type"), by rfl,
    by rfl⟩

/-- C3 (amended): when hashing the password succeeds, the storage saves
`(email, hash)` under an id and then returns that record for the email, the hash
verifies against the password, the application resolves and the token issuer
signs without error, then `RegisterNewUser` followed by `Login` with the same
credentials succeeds: the token is the one issued for the user whose id is the
id `RegisterNewUser` returned and whose email is the registered email, so that
under the contract of the issuer its `uid` claim is that id. -/
theorem register_then_login {σ : Type} (env : Env σ) (a : Auth σ) (email password : String)
    (appID : Int) (s s1 s2 s3 s4 s5 : σ) (passHash : Bytes) (id : Int) (app : models.App)
    (token : String)
    (hHash : env.GenerateFromPassword (bytes password) bcrypt.DefaultCost s =
      ((passHash, none), s1))
    (hSave : a.userSaver.SaveUser email passHash s1 = ((id, none), s2))
    (hUser : a.userProvider.User email s2 = ((⟨id, email, passHash⟩, none), s3))
    (hVerify : env.CompareHashAndPassword passHash (bytes password) = none)
    (hApp : a.appProvider.App appID s3 = ((app, none), s4))
    (hToken : env.NewToken ⟨id, email, passHash⟩ app a.tokenTTL s4 = ((token, none), s5)) :
    (RegisterNewUser env a email password s).ret = id ∧
    (RegisterNewUser env a email password s).err = none ∧
    (Login env a email password appID (RegisterNewUser env a email password s).store).err
      = none ∧
    (Login env a email password appID (RegisterNewUser env a email password s).store).ret
      = token ∧
    Event.NewToken ⟨(RegisterNewUser env a email password s).ret, email, passHash⟩ app
        a.tokenTTL ∈
      (Login env a email password appID (RegisterNewUser env a email password s).store).events ∧
    ∀ (claimsOf : String → Option Claims) (now : σ → Int),
      (∀ user app duration w token w1,
        env.NewToken user app duration w = ((token, none), w1) →
        claimsOf token = some ⟨user.ID, user.Email, app.ID, now w + duration⟩) →
      ∃ c, claimsOf
          (Login env a email password appID (RegisterNewUser env a email password s).store).ret
            = some c ∧
        c.uid = (RegisterNewUser env a email password s).ret ∧ c.email = email := by
  have hR := RegisterNewUser_success env a email password s s1 s2 passHash id hHash hSave
  have hL := Login_success env a email password appID s2 s3 s4 s5 ⟨id, email, passHash⟩ app
    token hUser hVerify hApp hToken
  rw [hR]
  refine ⟨rfl, rfl, ?_⟩
  show (Login env a email password appID s2).err = none ∧
    (Login env a email password appID s2).ret = token ∧
    Event.NewToken ⟨id, email, passHash⟩ app a.tokenTTL ∈
      (Login env a email password appID s2).events ∧
    ∀ (claimsOf : String → Option Claims) (now : σ → Int),
      (∀ user app duration w token w1,
        env.NewToken user app duration w = ((token, none), w1) →
        claimsOf token = some ⟨user.ID, user.Email, app.ID, now w + duration⟩) →
      ∃ c, claimsOf (Login env a email password appID s2).ret = some c ∧
        c.uid = id ∧ c.email = email
  rw [hL]
  exact ⟨rfl, rfl, by simp, fun claimsOf now hIssuer =>
    ⟨_, hIssuer _ _ _ _ _ _ hToken, rfl, rfl⟩⟩

/-- A run of C3 as amended: `a@x.com` registers in `world0` and logs in to the
application 1. -/
theorem register_then_login_witness :
    (RegisterNewUser refEnv refAuth "a@x.com" "Passw0rd!" world0).ret = 1 ∧
    (RegisterNewUser refEnv refAuth "a@x.com" "Passw0rd!" world0).err = none ∧
    (Login refEnv refAuth "a@x.com" "Passw0rd!" 1
      (RegisterNewUser refEnv refAuth "a@x.com" "Passw0rd!" world0).store).err = none ∧
    (Login refEnv refAuth "a@x.com" "Passw0rd!" 1
      (RegisterNewUser refEnv refAuth "a@x.com" "Passw0rd!" world0).store).ret = "a@x.com" ∧
    Event.NewToken ⟨(RegisterNewUser refEnv refAuth "a@x.com" "Passw0rd!" world0).ret,
        "a@x.com", (bytes "Passw0rd!").reverse⟩ ⟨1, "test", "test-secret"⟩ refAuth.tokenTTL ∈
      (Login refEnv refAuth "a@x.com" "Passw0rd!" 1
        (RegisterNewUser refEnv refAuth "a@x.com" "Passw0rd!" world0).store).events ∧
    ∃ c, refClaimsOf (Login refEnv refAuth "a@x.com" "Passw0rd!" 1
        (RegisterNewUser refEnv refAuth "a@x.com" "Passw0rd!" world0).store).ret = some c ∧
      c.uid = (RegisterNewUser refEnv refAuth "a@x.com" "Passw0rd!" world0).ret ∧
      c.email = "a@x.com" :=
  have h := register_then_login refEnv refAuth "a@x.com" "Passw0rd!" 1 world0 world0 world1
    world1 world1 world1 (bytes "Passw0rd!").reverse 1 ⟨1, "test", "test-secret"⟩ "a@x.com"
    (by rfl) (by rfl) (by rfl) (by rfl) (by rfl) (by rfl)
  ⟨h.1, h.2.1, h.2.2.1, h.2.2.2.1, h.2.2.2.2.1,
    h.2.2.2.2.2 refClaimsOf refNow refNewToken_contract⟩

/-- C4: when hashing succeeds and `SaveUser` reports that the email already
exists, `RegisterNewUser` returns the id 0 and an error that is `ErrUserExists`,
whose message contains "user already exists"; the error is
`ErrUserExists` under the name of the operation whatever the storage error was,
and the storage error is not reachable from it. -/
theorem register_user_exists {σ : Type} (env : Env σ) (a : Auth σ) (email password : String)
    (s s1 s2 : σ) (passHash : Bytes) (id : Int) (err : GoError)
    (hHash : env.GenerateFromPassword (bytes password) bcrypt.DefaultCost s =
      ((passHash, none), s1))
    (hSave : a.userSaver.SaveUser email passHash s1 = ((id, some err), s2))
    (hExists : errorsIs err (storage.ErrUserExists env) = true) :
    (RegisterNewUser env a email password s).ret = 0 ∧
    ∃ e, (RegisterNewUser env a email password s).err = some e ∧
      errorsIs e ErrUserExists = true ∧
      stringsContains e.Error "user already exists" = true ∧
      e.Error = "auth.Auth.RegisterNewUser: user already exists" ∧
      errorsUnwrap e = some ErrUserExists ∧
      errorsIs e err = false ∧
      errorsIs e (storage.ErrUserExists env) = false := by
  rw [RegisterNewUser_user_exists env a email password s s1 s2 passHash id err hHash hSave
    hExists]
  refine ⟨rfl, _, rfl, errorsIs_fmtErrorf_self _ _, ?_, by decide, rfl, ?_, ?_⟩
  · exact decide_eq_true ⟨"auth.Auth.RegisterNewUser: ".data, [], by rfl⟩
  · by_contra hc
    rw [Bool.not_eq_false, ErrUserExists, errorsIs_fmtErrorf_errorString] at hc
    rcases hc with hc | hc <;> subst hc <;>
      simp [fmtErrorf, errorsIs, storage.ErrUserExists] at hExists
  · rw [Bool.eq_false_iff]
    intro hc
    rw [ErrUserExists, errorsIs_fmtErrorf_errorString] at hc
    rcases hc with hc | hc <;> cases hc

/-- A run of C4: `a@x.com` registers a second time, in `world1`. -/
theorem register_user_exists_witness :
    (RegisterNewUser refEnv refAuth "a@x.com" "Passw0rd!" world1).ret = 0 ∧
    ∃ e, (RegisterNewUser refEnv refAuth "a@x.com" "Passw0rd!" world1).err = some e ∧
      errorsIs e ErrUserExists = true ∧
      stringsContains e.Error "user already exists" = true ∧
      e.Error = "auth.Auth.RegisterNewUser: user already exists" ∧
      errorsUnwrap e = some ErrUserExists ∧
      errorsIs e (storage.ErrUserExists refEnv) = false ∧
      errorsIs e (storage.ErrUserExists refEnv) = false :=
  register_user_exists refEnv refAuth "a@x.com" "Passw0rd!" world1 world1 world1
    (bytes "Passw0rd!").reverse 0 (storage.ErrUserExists refEnv) (by rfl) (by rfl) (by decide)

/-- C10: for every email and password, when `RegisterNewUser` succeeds it has
called `SaveUser` exactly once, with the given email and the hash produced from
the given password, and returns the id the storage assigned; when hashing the
password fails, `SaveUser` is not called, the outside state is the one the hasher
left, and the returned id is 0. -/
theorem register_saves_once {σ : Type} (env : Env σ) (a : Auth σ) (email password : String)
    (s : σ) :
    ((RegisterNewUser env a email password s).err = none →
      ∃ passHash s1,
        env.GenerateFromPassword (bytes password) bcrypt.DefaultCost s =
          ((passHash, none), s1) ∧
        a.userSaver.SaveUser email passHash s1 =
          (((RegisterNewUser env a email password s).ret, none),
            (RegisterNewUser env a email password s).store) ∧
        (RegisterNewUser env a email password s).events.filter Event.isSaveUser =
          [Event.SaveUser email passHash]) ∧
    (∀ passHash err s1,
      env.GenerateFromPassword (bytes password) bcrypt.DefaultCost s =
        ((passHash, some err), s1) →
      (RegisterNewUser env a email password s).ret = 0 ∧
      (RegisterNewUser env a email password s).err =
        some (fmtErrorf "auth.Auth.RegisterNewUser" err) ∧
      (RegisterNewUser env a email password s).store = s1 ∧
      (RegisterNewUser env a email password s).events.filter Event.isSaveUser = []) := by
  constructor
  · intro hOk
    rcases hHash : env.GenerateFromPassword (bytes password) bcrypt.DefaultCost s with
      ⟨⟨passHash, _ | err⟩, s1⟩
    · rcases hSave : a.userSaver.SaveUser email passHash s1 with ⟨⟨id, _ | err⟩, s2⟩
      · rw [RegisterNewUser_success env a email password s s1 s2 passHash id hHash hSave]
        exact ⟨passHash, s1, rfl, hSave, by simp [List.filter, Event.isSaveUser]⟩
      · cases hIs : errorsIs err (storage.ErrUserExists env) with
        | true =>
          rw [RegisterNewUser_user_exists env a email password s s1 s2 passHash id err hHash
            hSave hIs] at hOk
          simp at hOk
        | false =>
          rw [RegisterNewUser_save_error env a email password s s1 s2 passHash id err hHash
            hSave hIs] at hOk
          simp at hOk
    · rw [RegisterNewUser_hash_error env a email password s s1 passHash err hHash] at hOk
      simp at hOk
  · intro passHash err s1 hHash
    rw [RegisterNewUser_hash_error env a email password s s1 passHash err hHash]
    exact ⟨rfl, rfl, rfl, by simp [List.filter, Event.isSaveUser]⟩

/-- Two runs of C10: the empty email registers with the empty password in
`world0`, and a password of 73 bytes is rejected by the hasher. -/
theorem register_saves_once_witness :
    (∃ passHash s1,
        refEnv.GenerateFromPassword (bytes "") bcrypt.DefaultCost world0 =
          ((passHash, none), s1) ∧
        refAuth.userSaver.SaveUser "" passHash s1 =
          (((RegisterNewUser refEnv refAuth "" "" world0).ret, none),
            (RegisterNewUser refEnv refAuth "" "" world0).store) ∧
        (RegisterNewUser refEnv refAuth "" "" world0).events.filter Event.isSaveUser =
          [Event.SaveUser "" passHash]) ∧
    ((RegisterNewUser refEnv refAuth "b@x.com" longPassword world0).ret = 0 ∧
      (RegisterNewUser refEnv refAuth "b@x.com" longPassword world0).err =
        some (fmtErrorf "auth.Auth.RegisterNewUser"
          (.errorString (.other 0) "bcrypt: password length exceeds 72 bytes")) ∧
      (RegisterNewUser refEnv refAuth "b@x.com" longPassword world0).store = world0 ∧
      (RegisterNewUser refEnv refAuth "b@x.com" longPassword world0).events.filter
        Event.isSaveUser = []) :=
  ⟨(register_saves_once refEnv refAuth "" "" world0).1 (by rfl),
    (register_saves_once refEnv refAuth "b@x.com" longPassword world0).2 []
      (.errorString (.other 0) "bcrypt: password length exceeds 72 bytes") world0 (by rfl)⟩

/-! ## Storage failures -/

/-- C6 (counterexample): the database is locked and the user lookup fails with an
error that is not the not-found signal; the error `Login` returns is no domain
error, it unwraps to the storage error and its message ends with the message of
the storage error. -/
theorem storage_error_escapes_login :
    errorsIs dbLocked (storage.ErrUserNotFound refEnv) = false ∧
    ∃ e, (Login refEnv brokenAuth "a@x.com" "Passw0rd!" 1 world0).err = some e ∧
      errorsIs e dbLocked = true ∧
      errorsUnwrap e = some dbLocked ∧
      e.Error = "auth.Auth.Login: database is locked" ∧
      dbLocked.Error = "database is locked" ∧
      errorsIs e ErrInvalidCredentials = false ∧
      errorsIs e ErrInvalidAppID = false ∧
      errorsIs e ErrUserExists = false :=
  ⟨by decide, fmtErrorf "auth.Auth.Login" dbLocked, by rfl, by decide, by rfl, by decide,
    by rfl, by decide, by decide, by decide⟩

/-- C6 (amended): a storage failure other than the not-found and already-exists
signals is returned wrapped under the name of the operation, with the zero value
as result: the error is non-nil, its message is the name of the operation, a
colon and the message of the storage error, and the storage error is reachable
from it.  This holds for an error of the user lookup of `Login` that is not
`storage.ErrUserNotFound`, for any error of its application lookup, for an error
of `SaveUser` in `RegisterNewUser` that is not `storage.ErrUserExists`, and for
an error of `Admin` in `IsAdmin` that is neither `storage.ErrAppNotFound` nor
`storage.ErrUserNotFound`. -/
theorem storage_error_wrapped {σ : Type} (env : Env σ) :
    (∀ (a : Auth σ) (email password : String) (appID : Int) (s s1 : σ) (user : models.User)
        (err : GoError),
      a.userProvider.User email s = ((user, some err), s1) →
      errorsIs err (storage.ErrUserNotFound env) = false →
      (Login env a email password appID s).ret = "" ∧
      ∃ e, (Login env a email password appID s).err = some e ∧
        errorsUnwrap e = some err ∧ errorsIs e err = true ∧
        e.Error = "auth.Auth.Login" ++ ": " ++ err.Error) ∧
    (∀ (a : Auth σ) (email password : String) (appID : Int) (s s1 s2 : σ)
        (user : models.User) (app : models.App) (err : GoError),
      a.userProvider.User email s = ((user, none), s1) →
      env.CompareHashAndPassword user.PassHash (bytes password) = none →
      a.appProvider.App appID s1 = ((app, some err), s2) →
      (Login env a email password appID s).ret = "" ∧
      ∃ e, (Login env a email password appID s).err = some e ∧
        errorsUnwrap e = some err ∧ errorsIs e err = true ∧
        e.Error = "auth.Auth.Login" ++ ": " ++ err.Error) ∧
    (∀ (a : Auth σ) (email password : String) (s s1 s2 : σ) (passHash : Bytes) (id : Int)
        (err : GoError),
      env.GenerateFromPassword (bytes password) bcrypt.DefaultCost s =
        ((passHash, none), s1) →
      a.userSaver.SaveUser email passHash s1 = ((id, some err), s2) →
      errorsIs err (storage.ErrUserExists env) = false →
      (RegisterNewUser env a email password s).ret = 0 ∧
      ∃ e, (RegisterNewUser env a email password s).err = some e ∧
        errorsUnwrap e = some err ∧ errorsIs e err = true ∧
        e.Error = "auth.Auth.RegisterNewUser" ++ ": " ++ err.Error) ∧
    (∀ (a : Auth σ) (userID : Int) (s s1 : σ) (flag : Bool) (err : GoError),
      a.userProvider.Admin userID s = ((flag, some err), s1) →
      errorsIs err (storage.ErrAppNotFound env) = false →
      errorsIs err (storage.ErrUserNotFound env) = false →
      (IsAdmin env a userID s).ret = false ∧
      ∃ e, (IsAdmin env a userID s).err = some e ∧
        errorsUnwrap e = some err ∧ errorsIs e err = true ∧
        e.Error = "auth.Auth.IsAdmin" ++ ": " ++ err.Error) := by
  refine ⟨?_, ?_, ?_, ?_⟩
  · intro a email password appID s s1 user err hUser hOther
    rw [Login_user_error env a email password appID s s1 user err hUser hOther]
    exact ⟨rfl, _, rfl, rfl, errorsIs_fmtErrorf_self _ _, rfl⟩
  · intro a email password appID s s1 s2 user app err hUser hCompare hApp
    rw [Login_app_error env a email password appID s s1 s2 user app err hUser hCompare hApp]
    exact ⟨rfl, _, rfl, rfl, errorsIs_fmtErrorf_self _ _, rfl⟩
  · intro a email password s s1 s2 passHash id err hHash hSave hOther
    rw [RegisterNewUser_save_error env a email password s s1 s2 passHash id err hHash hSave
      hOther]
    exact ⟨rfl, _, rfl, rfl, errorsIs_fmtErrorf_self _ _, rfl⟩
  · intro a userID s s1 flag err hAdmin hOther _
    rw [IsAdmin_error env a userID s s1 flag err hAdmin hOther]
    exact ⟨rfl, _, rfl, rfl, errorsIs_fmtErrorf_self _ _, rfl⟩

/-- Four runs of C6 as amended: the user lookup and `SaveUser` on the locked
database, the lookup of the unknown application 99 by the registered user, and
the admin lookup on the locked database. -/
theorem storage_error_wrapped_witness :
    ((Login refEnv brokenAuth "a@x.com" "Passw0rd!" 1 world0).ret = "" ∧
      ∃ e, (Login refEnv brokenAuth "a@x.com" "Passw0rd!" 1 world0).err = some e ∧
        errorsUnwrap e = some dbLocked ∧ errorsIs e dbLocked = true ∧
        e.Error = "auth.Auth.Login" ++ ": " ++ dbLocked.Error) ∧
    ((Login refEnv refAuth "a@x.com" "Passw0rd!" 99 world1).ret = "" ∧
      ∃ e, (Login refEnv refAuth "a@x.com" "Passw0rd!" 99 world1).err = some e ∧
        errorsUnwrap e = some (storage.ErrAppNotFound refEnv) ∧
        errorsIs e (storage.ErrAppNotFound refEnv) = true ∧
        e.Error = "auth.Auth.Login" ++ ": " ++ (storage.ErrAppNotFound refEnv).Error) ∧
    ((RegisterNewUser refEnv brokenAuth "a@x.com" "Passw0rd!" world0).ret = 0 ∧
      ∃ e, (RegisterNewUser refEnv brokenAuth "a@x.com" "Passw0rd!" world0).err = some e ∧
        errorsUnwrap e = some dbLocked ∧ errorsIs e dbLocked = true ∧
        e.Error = "auth.Auth.RegisterNewUser" ++ ": " ++ dbLocked.Error) ∧
    ((IsAdmin refEnv brokenAuth 1 world0).ret = false ∧
      ∃ e, (IsAdmin refEnv brokenAuth 1 world0).err = some e ∧
        errorsUnwrap e = some dbLocked ∧ errorsIs e dbLocked = true ∧
        e.Error = "auth.Auth.IsAdmin" ++ ": " ++ dbLocked.Error) :=
  ⟨(storage_error_wrapped refEnv).1 brokenAuth "a@x.com" "Passw0rd!" 1 world0 world0
      { ID := 0, Email := "", PassHash := [] } dbLocked (by rfl) (by decide),
    (storage_error_wrapped refEnv).2.1 refAuth "a@x.com" "Passw0rd!" 99 world1 world1 world1
      { ID := 1, Email := "a@x.com", PassHash := (bytes "Passw0rd!").reverse }
      { ID := 0, Name := "", Secret := "" } (storage.ErrAppNotFound refEnv)
      (by rfl) (by rfl) (by rfl),
    (storage_error_wrapped refEnv).2.2.1 brokenAuth "a@x.com" "Passw0rd!" world0 world0 world0
      (bytes "Passw0rd!").reverse 0 dbLocked (by rfl) (by rfl) (by decide),
    (storage_error_wrapped refEnv).2.2.2 brokenAuth 1 world0 world0 false dbLocked (by rfl)
      (by decide) (by decide)⟩

/-! ## IsAdmin -/

/-- The parts of C7 the code keeps: a lookup failure that is not
`storage.ErrAppNotFound` gives `false` and a non-nil error, a lookup failure that
is `storage.ErrAppNotFound` gives `false` and an error that is `ErrInvalidAppID`,
and a successful lookup gives the flag of the storage and a nil error. -/
theorem isAdmin_cases {σ : Type} (env : Env σ) (a : Auth σ) (userID : Int) (s s1 : σ)
    (flag : Bool) (res : Option GoError)
    (hAdmin : a.userProvider.Admin userID s = ((flag, res), s1)) :
    (res = none → (IsAdmin env a userID s).ret = flag ∧ (IsAdmin env a userID s).err = none) ∧
    (∀ err, res = some err →
      (IsAdmin env a userID s).ret = false ∧ (IsAdmin env a userID s).err ≠ none) ∧
    (∀ err, res = some err → errorsIs err (storage.ErrAppNotFound env) = true →
      ∃ e, (IsAdmin env a userID s).err = some e ∧ errorsIs e ErrInvalidAppID = true) := by
  refine ⟨fun h => ?_, fun err h => ?_, fun err h hIs => ?_⟩
  · subst h
    rw [IsAdmin_success env a userID s s1 flag hAdmin]
    exact ⟨rfl, rfl⟩
  · subst h
    cases hIs : errorsIs err (storage.ErrAppNotFound env) with
    | true =>
      rw [IsAdmin_app_not_found env a userID s s1 flag err hAdmin hIs]
      exact ⟨rfl, by simp⟩
    | false =>
      rw [IsAdmin_error env a userID s s1 flag err hAdmin hIs]
      exact ⟨rfl, by simp⟩
  · subst h
    rw [IsAdmin_app_not_found env a userID s s1 flag err hAdmin hIs]
    exact ⟨_, rfl, errorsIs_fmtErrorf_self _ _⟩

/-- C7 (failing input): no user 42 is stored in `world1` and the admin lookup
reports `storage.ErrUserNotFound`, the not-found signal of the storage contract;
`IsAdmin` returns `false` and that signal wrapped under the name of the
operation, an error that is not `ErrInvalidAppID`. -/
theorem isAdmin_user_not_found :
    refAuth.userProvider.Admin 42 world1 =
      ((false, some (storage.ErrUserNotFound refEnv)), world1) ∧
    (IsAdmin refEnv refAuth 42 world1).ret = false ∧
    ∃ e, (IsAdmin refEnv refAuth 42 world1).err = some e ∧
      e = fmtErrorf "auth.Auth.IsAdmin" (storage.ErrUserNotFound refEnv) ∧
      e.Error = "auth.Auth.IsAdmin: user not found" ∧
      errorsIs e (storage.ErrUserNotFound refEnv) = true ∧
      errorsIs e ErrInvalidAppID = false :=
  ⟨by rfl, by rfl, fmtErrorf "auth.Auth.IsAdmin" (storage.ErrUserNotFound refEnv), by rfl, rfl,
    by rfl, by decide, by decide⟩

end AuthService
